import Mathlib

/-!
Verification of the resolution framework and its git backend.

The development shallowly embeds:

* the durable `ResolutionRequest` reconciler
  (`pkg/reconciler/resolutionrequest/resolutionrequest.go`),
* the git resolver's parameter validation and resolution algorithm,
* the framework reconciler's translation of resolver outcomes into
  status fields, including the base64 encoding of resolved content, and
* the resolver timeout configuration lookup.

Durations are modelled as `Int` nanoseconds (Go's `time.Duration` is an
`int64` nanosecond count); timestamps as `Int` nanoseconds since the
epoch; byte strings as `List Nat` with each element below 256; the
encoded status `data` string of the framework reconciler as the list of
its character codes.
-/

/-- Status value of a request's Succeeded condition: `Unknown`, `True`
or `False`. -/
inductive CondStatus
  | unknown
  | ctrue
  | cfalse
  deriving DecidableEq, Repr

/-- A status condition: status value plus reason and message strings. -/
structure Condition where
  status : CondStatus
  reason : String
  message : String
  deriving DecidableEq, Repr

/-- Status block of a `ResolutionRequest`: the optional Succeeded
condition, the resolved `data` string and the status annotations. -/
structure RRStatus where
  condition : Option Condition
  data : String
  annotations : List (String × String)
  deriving DecidableEq, Repr

/-- A `ResolutionRequest`: identity (namespace and name), creation
timestamp (nanoseconds since the epoch) and mutable status. -/
structure ResolutionRequest where
  ns : String
  name : String
  creationTimestamp : Int
  status : RRStatus
  deriving DecidableEq, Repr

/-- Modelled from the spec: `IsDone` (defined in the CRD types package,
which is not part of the sources) holds once the status condition is
terminal, i.e. present with value `True` or `False`. -/
def ResolutionRequest.IsDone (rr : ResolutionRequest) : Bool :=
  match rr.status.condition with
  | some c =>
    match c.status with
    | CondStatus.unknown => false
    | _ => true
  | none => false

/-- Modelled from the spec: `InitializeConditions` (knative condition
manager, not part of the sources) sets the Succeeded condition to
`Unknown`. -/
def initializeConditions (rr : ResolutionRequest) : ResolutionRequest :=
  { rr with status := { rr.status with condition := some ⟨CondStatus.unknown, "", ""⟩ } }

/-- Modelled from the spec: `MarkSucceeded` (CRD types package, not part
of the sources) sets the Succeeded condition to `True`. -/
def markSucceeded (rr : ResolutionRequest) : ResolutionRequest :=
  { rr with status := { rr.status with condition := some ⟨CondStatus.ctrue, "", ""⟩ } }

/-- Modelled from the spec: `MarkFailed` (CRD types package, not part of
the sources) sets the Succeeded condition to `False` with the given
reason and message. -/
def markFailed (rr : ResolutionRequest) (reason message : String) : ResolutionRequest :=
  { rr with status := { rr.status with condition := some ⟨CondStatus.cfalse, reason, message⟩ } }

/-- Modelled from the spec: `MarkInProgress` (CRD types package, not
part of the sources) sets the Succeeded condition to `Unknown` with the
given message. -/
def markInProgress (rr : ResolutionRequest) (message : String) : ResolutionRequest :=
  { rr with status := { rr.status with condition := some ⟨CondStatus.unknown, "", message⟩ } }

/-- `defaultMaximumResolutionDuration = 1 * time.Minute`, in
nanoseconds, from `resolutionrequest.go`. -/
def defaultMaximumResolutionDuration : Int := 60000000000

/-- Modelled from the spec: the reason string
`ReasonResolutionTimedOut` of the common package, which is not part of
the sources. -/
def ReasonResolutionTimedOut : String := "ResolutionTimedOut"

/-- Modelled from the spec: the message constant
`MessageWaitingForResolver` of the common package, which is not part of
the sources; the spec gives the message as "waiting for resolver". -/
def MessageWaitingForResolver : String := "waiting for resolver"

/-- The message produced by
`fmt.Sprintf("resolution took longer than global timeout of %s", defaultMaximumResolutionDuration)`
in `resolutionrequest.go`; Go renders one minute as `1m0s`. -/
def globalTimeoutMessage : String := "resolution took longer than global timeout of 1m0s"

/-- `requestDuration` from `resolutionrequest.go`: elapsed time between
a request's creation timestamp and now.  The wall clock read
(`time.Now()`) is passed in explicitly as `now`. -/
def requestDuration (now : Int) (rr : ResolutionRequest) : Int :=
  now - rr.creationTimestamp

/-- Outcome of one reconcile invocation: a plain (error-free) return, or
a `controller.NewRequeueAfter` event with the given delay. -/
inductive ReconcileResult
  | done
  | requeueAfter (d : Int)
  deriving DecidableEq, Repr

/-- `ReconcileKind` from `resolutionrequest.go`: on a non-terminal
request, initialize the condition if unset, then mark Succeeded if
`data` is non-empty, else mark Failed when the elapsed time strictly
exceeds the global maximum resolution duration, else mark InProgress
and requeue after the remaining time.  Returns the updated request and
the reconcile outcome. -/
def reconcileKind (now : Int) (rr : ResolutionRequest) : ResolutionRequest × ReconcileResult :=
  if rr.IsDone then (rr, ReconcileResult.done)
  else
    let rr1 := if rr.status.condition.isNone then initializeConditions rr else rr
    if rr1.status.data ≠ "" then (markSucceeded rr1, ReconcileResult.done)
    else if requestDuration now rr1 > defaultMaximumResolutionDuration then
      (markFailed rr1 ReasonResolutionTimedOut globalTimeoutMessage, ReconcileResult.done)
    else
      (markInProgress rr1 MessageWaitingForResolver,
        ReconcileResult.requeueAfter (defaultMaximumResolutionDuration - requestDuration now rr1))

/-- A terminal request used as a concrete input: condition `True`. -/
def doneRR : ResolutionRequest :=
  ⟨"foo", "rr", 0, ⟨some ⟨CondStatus.ctrue, "", ""⟩, "c29tZSBjb250ZW50", []⟩⟩

/-- A non-terminal request whose status data is already populated. -/
def staleDataRR : ResolutionRequest :=
  ⟨"foo", "rr", 0, ⟨none, "cached", []⟩⟩

/-- A non-terminal request with empty status data. -/
def pendingRR : ResolutionRequest :=
  ⟨"foo", "rr", 0, ⟨none, "", []⟩⟩

/-- Association-list lookup, keyed by strings: the first binding of the
key wins. -/
def lookupStr {α : Type} : List (String × α) → String → Option α
  | [], _ => none
  | (k2, v) :: rest, k => if k2 = k then some v else lookupStr rest k

/-- An entry of a checked-out git tree at some repo-relative path:
either a file with raw byte content, or a directory. -/
inductive GitEntry
  | file (content : List Nat)
  | dir
  deriving DecidableEq, Repr

/-- A git repository as the resolver observes it: the default branch
name, the branch tips (branch name to commit id) and the commit objects
(commit id to the tree checked out at that commit, keyed by
repo-relative path). -/
structure Repo where
  defaultBranch : String
  branches : List (String × String)
  objects : List (String × List (String × GitEntry))
  deriving DecidableEq, Repr

/-- The git resolver's output: the raw bytes of the requested file plus
the commit id actually checked out. -/
structure ResolvedGitResource where
  content : List Nat
  commit : String
  deriving DecidableEq, Repr

/-- Modelled from the spec: `ValidateParams` of the git resolver (its
source file is not part of the sources, only its tests are). Fails when
`url` or `path` is missing or when both `commit` and `branch` are
present. -/
def validateParams (params : List (String × String)) : Except String Unit :=
  if (lookupStr params "url").isNone then
    Except.error "missing required git resolver param: url"
  else if (lookupStr params "path").isNone then
    Except.error "missing required git resolver param: path"
  else if (lookupStr params "commit").isSome ∧ (lookupStr params "branch").isSome then
    Except.error "cannot use both commit and branch params"
  else Except.ok ()

/-- Modelled from the spec: step 2 of the git resolution algorithm —
determine the target commit.  A given `commit` id is used directly when
the object exists, else `checkout error: object not found`; a given
`branch` resolves `refs/heads/<branch>`, else
`clone error: couldn't find remote ref ...`; with neither, the default
branch tip is used. -/
def resolveRef (repo : Repo) (params : List (String × String)) : Except String String :=
  match lookupStr params "commit" with
  | some c =>
    if (lookupStr repo.objects c).isSome then Except.ok c
    else Except.error "checkout error: object not found"
  | none =>
    match lookupStr params "branch" with
    | some b =>
      match lookupStr repo.branches b with
      | some c => Except.ok c
      | none =>
        Except.error ("clone error: couldn't find remote ref \"refs/heads/" ++ b ++ "\"")
    | none =>
      match lookupStr repo.branches repo.defaultBranch with
      | some c => Except.ok c
      | none =>
        Except.error
          ("clone error: couldn't find remote ref \"refs/heads/" ++ repo.defaultBranch ++ "\"")

/-- Modelled from the spec: `Resolve` of the git resolver (its source
file is not part of the sources, only its tests are).  Resolves the
target ref, then reads the blob at `path` in that commit's tree; a
missing path or a directory is reported as
`error opening file "<path>": file does not exist`. -/
def gitResolve (repo : Repo) (params : List (String × String)) :
    Except String ResolvedGitResource :=
  match lookupStr params "path" with
  | none => Except.error "missing required git resolver param: path"
  | some path =>
    match resolveRef repo params with
    | Except.error e => Except.error e
    | Except.ok c =>
      match lookupStr repo.objects c with
      | none => Except.error "checkout error: object not found"
      | some tree =>
        match lookupStr tree path with
        | some (GitEntry.file content) => Except.ok ⟨content, c⟩
        | _ => Except.error ("error opening file \"" ++ path ++ "\": file does not exist")

/-- The bytes of the string "some content". -/
def someContentBytes : List Nat :=
  [115, 111, 109, 101, 32, 99, 111, 110, 116, 101, 110, 116]

/-- The bytes of the string "different content". -/
def differentContentBytes : List Nat :=
  [100, 105, 102, 102, 101, 114, 101, 110, 116, 32, 99, 111, 110, 116, 101, 110, 116]

/-- Tree of commit `c1`: `foo/bar/somefile` holds "some content". -/
def demoTree1 : List (String × GitEntry) :=
  [("foo/bar/somefile", GitEntry.file someContentBytes), ("foo/bar", GitEntry.dir)]

/-- Tree of commit `c2`: `foo/bar/somefile` holds "different content". -/
def demoTree2 : List (String × GitEntry) :=
  [("foo/bar/somefile", GitEntry.file differentContentBytes), ("foo/bar", GitEntry.dir)]

/-- A concrete repository mirroring the resolver tests: `master` is the
default branch whose tip `c2` follows `c1`, and `other-branch` stays at
`c1`. -/
def demoRepo : Repo :=
  ⟨"master", [("master", "c2"), ("other-branch", "c1")],
    [("c1", demoTree1), ("c2", demoTree2)]⟩

/-- Parameters pinning the historical commit `c1`. -/
def demoParamsCommit : List (String × String) :=
  [("url", "repo"), ("path", "foo/bar/somefile"), ("commit", "c1")]

/-- Parameters naming a path absent from the tree. -/
def demoParamsMissingFile : List (String × String) :=
  [("url", "repo"), ("path", "foo/bar/some other file"), ("commit", "c1")]

/-- Parameters naming a branch that does not exist. -/
def demoParamsBadBranch : List (String × String) :=
  [("url", "repo"), ("path", "foo/bar/somefile"), ("branch", "does-not-exist")]

/-- Parameters naming a commit id that does not exist. -/
def demoParamsBadCommit : List (String × String) :=
  [("url", "repo"), ("path", "foo/bar/somefile"), ("commit", "deadbeef")]

/-- The standard base64 alphabet, as character codes: sextets 0-25 map
to `A`-`Z`, 26-51 to `a`-`z`, 52-61 to `0`-`9`, 62 to `+`, 63 to `/`. -/
def sextetToCode (n : Nat) : Nat :=
  if n < 26 then 65 + n
  else if n < 52 then 97 + (n - 26)
  else if n < 62 then 48 + (n - 52)
  else if n = 62 then 43
  else 47

/-- Inverse of the base64 alphabet: maps a character code back to its
sextet, or `none` for characters outside the alphabet. -/
def codeToSextet (c : Nat) : Option Nat :=
  if 65 ≤ c ∧ c ≤ 90 then some (c - 65)
  else if 97 ≤ c ∧ c ≤ 122 then some (c - 97 + 26)
  else if 48 ≤ c ∧ c ≤ 57 then some (c - 48 + 52)
  else if c = 43 then some 62
  else if c = 47 then some 63
  else none

/-- Standard base64 encoding (`base64.StdEncoding.EncodeToString`, the
encoding the framework reconciler tests pin for the status data field):
bytes in, character codes out, `=` (code 61) padding for trailing
groups of one or two bytes. -/
def base64Encode : List Nat → List Nat
  | [] => []
  | [b0] => [sextetToCode (b0 / 4), sextetToCode (b0 % 4 * 16), 61, 61]
  | [b0, b1] =>
    [sextetToCode (b0 / 4), sextetToCode (b0 % 4 * 16 + b1 / 16),
      sextetToCode (b1 % 16 * 4), 61]
  | b0 :: b1 :: b2 :: rest =>
    sextetToCode (b0 / 4) :: sextetToCode (b0 % 4 * 16 + b1 / 16) ::
      sextetToCode (b1 % 16 * 4 + b2 / 64) :: sextetToCode (b2 % 64) :: base64Encode rest

/-- Strict base64 decoding, the inverse of `base64Encode`: rejects
inputs whose length is not a multiple of four, characters outside the
alphabet, and non-zero padding bits. -/
def base64Decode : List Nat → Option (List Nat)
  | [] => some []
  | c0 :: c1 :: c2 :: c3 :: rest =>
    if c2 = 61 ∧ c3 = 61 ∧ rest = [] then
      match codeToSextet c0, codeToSextet c1 with
      | some s0, some s1 => if s1 % 16 = 0 then some [s0 * 4 + s1 / 16] else none
      | _, _ => none
    else if c3 = 61 ∧ rest = [] then
      match codeToSextet c0, codeToSextet c1, codeToSextet c2 with
      | some s0, some s1, some s2 =>
        if s2 % 4 = 0 then some [s0 * 4 + s1 / 16, s1 % 16 * 16 + s2 / 4] else none
      | _, _, _ => none
    else
      match codeToSextet c0, codeToSextet c1, codeToSextet c2, codeToSextet c3,
          base64Decode rest with
      | some s0, some s1, some s2, some s3, some ds =>
        some ((s0 * 4 + s1 / 16) :: (s1 % 16 * 16 + s2 / 4) :: (s2 % 4 * 64 + s3) :: ds)
      | _, _, _, _, _ => none
  | _ => none

/-- Outcome of one `Resolve` call as the framework reconciler sees it:
a resolved resource (content bytes plus annotations), a context
deadline expiry, or any other resolver error. -/
inductive ResolveOutcome
  | success (content : List Nat) (annotations : List (String × String))
  | deadlineExceeded
  | failure (msg : String)
  deriving DecidableEq, Repr

/-- The status fields of a request as written by the framework
reconciler; the encoded `data` string is represented by its character
codes. -/
structure FrameworkStatus where
  condition : Option Condition
  data : List Nat
  annotations : List (String × String)
  deriving DecidableEq, Repr

/-- Modelled from the spec: steps 5.d-f of the reconciliation driver
(the framework reconciler source is not part of the sources, only its
tests are).  On success it base64-encodes the content into the status
data field, copies the resolver annotations onto the status and marks
Succeeded; on a deadline expiry it fails with `ResolutionTimedOut`; on
any other resolver error it fails with `ResolutionFailed` and the
message `error getting "<ResolverName>" "<namespace>/<name>": <cause>`. -/
def frameworkDispatch (resolverName reqNamespace reqName : String)
    (outcome : ResolveOutcome) (st : FrameworkStatus) : FrameworkStatus :=
  match outcome with
  | ResolveOutcome.success content anns =>
    { st with
      condition := some ⟨CondStatus.ctrue, "", ""⟩
      data := base64Encode content
      annotations := anns }
  | ResolveOutcome.deadlineExceeded =>
    { st with
      condition := some ⟨CondStatus.cfalse, ReasonResolutionTimedOut,
        "context deadline exceeded"⟩ }
  | ResolveOutcome.failure e =>
    { st with
      condition := some ⟨CondStatus.cfalse, "ResolutionFailed",
        "error getting \"" ++ resolverName ++ "\" \"" ++ reqNamespace ++ "/" ++
          reqName ++ "\": " ++ e⟩ }

/-- An empty framework status, used as a concrete starting point. -/
def emptyFrameworkStatus : FrameworkStatus := ⟨none, [], []⟩

/-- Modelled from the spec: the resolver configuration field holding the
timeout override; the spec gives the mapping as `timeout: "5s"`. -/
def ConfigFieldTimeout : String := "timeout"

/-- Nanoseconds per Go duration unit. -/
def unitNanos (u : String) : Option Int :=
  if u = "ns" then some 1
  else if u = "us" then some 1000
  else if u = "ms" then some 1000000
  else if u = "s" then some 1000000000
  else if u = "m" then some 60000000000
  else if u = "h" then some 3600000000000
  else none

/-- Numeric value of a list of decimal digit character codes. -/
def digitsToNat (ds : List Char) : Nat :=
  ds.foldl (fun a c => a * 10 + (c.toNat - 48)) 0

/-- Modelled from the spec: duration-string parsing — a sequence of
integer-and-unit segments summed into nanoseconds.  The fuel argument
bounds the recursion by the input length; each step consumes at least
one character. -/
def parseDurationAux : Nat → List Char → Option Int
  | _, [] => some 0
  | 0, _ :: _ => none
  | fuel + 1, c :: cs =>
    let ds := (c :: cs).takeWhile (fun ch => ch.isDigit)
    let rest1 := (c :: cs).dropWhile (fun ch => ch.isDigit)
    if ds.isEmpty then none
    else
      let us := rest1.takeWhile (fun ch => ch.isAlpha)
      let rest2 := rest1.dropWhile (fun ch => ch.isAlpha)
      match unitNanos (String.mk us) with
      | none => none
      | some u =>
        match parseDurationAux fuel rest2 with
        | none => none
        | some r => some ((digitsToNat ds : Int) * u + r)

/-- Modelled from the spec: parse a Go duration string such as `"5s"`
into nanoseconds; the empty string is invalid. -/
def parseGoDuration (s : String) : Option Int :=
  if s = "" then none else parseDurationAux s.length s.toList

/-- Modelled from the spec: `GetResolutionTimeout` of the git resolver
(its source file is not part of the sources, only its tests are) —
returns the duration parsed from the request-scoped resolver
configuration when present, else the caller-supplied default. -/
def GetResolutionTimeout (resolverConfig : Option (List (String × String)))
    (defaultTimeout : Int) : Int :=
  match resolverConfig with
  | none => defaultTimeout
  | some cfg =>
    match lookupStr cfg ConfigFieldTimeout with
    | none => defaultTimeout
    | some s =>
      match parseGoDuration s with
      | none => defaultTimeout
      | some t => t

/-- C3: once a request's status condition is terminal, reconciling again
is a no-op — it returns without error and leaves the request, status
included, entirely unchanged. -/
theorem reconcile_terminal_noop (now : Int) (rr : ResolutionRequest)
    (h : rr.IsDone = true) :
    reconcileKind now rr = (rr, ReconcileResult.done) := by
  simp [reconcileKind, h]

/-- C3 witness: the terminal request `doneRR` is done, and reconciling
it at any instant returns it unchanged with a plain return. -/
theorem reconcile_terminal_noop_witness :
    doneRR.IsDone = true ∧ reconcileKind 120000000000 doneRR = (doneRR, ReconcileResult.done) :=
  ⟨by decide, reconcile_terminal_noop 120000000000 doneRR (by decide)⟩

/-- C10: a non-terminal request with non-empty status data is marked
Succeeded by the reconciler at any instant — in particular even when the
elapsed time exceeds the global maximum resolution duration, because the
data check is evaluated before the timeout check. -/
theorem reconcile_data_succeeds (now : Int) (rr : ResolutionRequest)
    (h1 : rr.IsDone = false) (h2 : rr.status.data ≠ "") :
    (reconcileKind now rr).1.status.condition = some ⟨CondStatus.ctrue, "", ""⟩ ∧
    (reconcileKind now rr).2 = ReconcileResult.done := by
  simp only [reconcileKind, h1, Bool.false_eq_true, if_false]
  by_cases hc : rr.status.condition.isNone <;>
    simp [hc, initializeConditions, markSucceeded, h2]

/-- C10 witness: `staleDataRR` is non-terminal with populated data, its
elapsed time at instant 7200000000000 (two hours) strictly exceeds the
global ceiling, and reconciling at that instant still marks it
Succeeded. -/
theorem reconcile_data_succeeds_witness :
    staleDataRR.IsDone = false ∧ staleDataRR.status.data ≠ "" ∧
    requestDuration 7200000000000 staleDataRR > defaultMaximumResolutionDuration ∧
    (reconcileKind 7200000000000 staleDataRR).1.status.condition =
      some ⟨CondStatus.ctrue, "", ""⟩ ∧
    (reconcileKind 7200000000000 staleDataRR).2 = ReconcileResult.done :=
  ⟨by decide, by decide, by decide,
    (reconcile_data_succeeds 7200000000000 staleDataRR (by decide) (by decide)).1,
    (reconcile_data_succeeds 7200000000000 staleDataRR (by decide) (by decide)).2⟩

/-- C2 counterexample: two concrete refutations of "elapsed ≥ ceiling
forces Failed/ResolutionTimedOut".  First, `staleDataRR` is non-terminal
and at instant 120000000000 its elapsed time (120s) is at least the 60s
ceiling, yet reconciling marks it Succeeded (condition `True`), not
Failed.  Second, `pendingRR` at instant 60000000000 has elapsed time
exactly equal to the ceiling, yet reconciling marks it InProgress and
requeues instead of failing. -/
theorem reconcile_timeout_claim_counterexample :
    staleDataRR.IsDone = false ∧
    requestDuration 120000000000 staleDataRR ≥ defaultMaximumResolutionDuration ∧
    (reconcileKind 120000000000 staleDataRR).1.status.condition =
      some ⟨CondStatus.ctrue, "", ""⟩ ∧
    pendingRR.IsDone = false ∧
    requestDuration 60000000000 pendingRR ≥ defaultMaximumResolutionDuration ∧
    (reconcileKind 60000000000 pendingRR).1.status.condition =
      some ⟨CondStatus.unknown, "", MessageWaitingForResolver⟩ ∧
    (reconcileKind 60000000000 pendingRR).2 = ReconcileResult.requeueAfter 0 := by
  decide

/-- C2 (amended): a non-terminal request whose status data is empty and
whose elapsed time strictly exceeds the global maximum resolution
duration is marked Failed with reason `ResolutionTimedOut`. -/
theorem reconcile_global_timeout (now : Int) (rr : ResolutionRequest)
    (h1 : rr.IsDone = false) (h2 : rr.status.data = "")
    (h3 : requestDuration now rr > defaultMaximumResolutionDuration) :
    (reconcileKind now rr).1.status.condition =
      some ⟨CondStatus.cfalse, ReasonResolutionTimedOut, globalTimeoutMessage⟩ ∧
    (reconcileKind now rr).2 = ReconcileResult.done := by
  simp only [reconcileKind, h1, Bool.false_eq_true, if_false]
  by_cases hc : rr.status.condition.isNone <;>
    simp [hc, initializeConditions, markFailed, requestDuration, h2,
      requestDuration] at h3 ⊢ <;>
    simp [h3]

/-- C2 witness: `pendingRR` is non-terminal with empty data, its elapsed
time at instant 61000000000 (61s) strictly exceeds the 60s ceiling, and
reconciling at that instant marks it Failed with reason
`ResolutionTimedOut`. -/
theorem reconcile_global_timeout_witness :
    pendingRR.IsDone = false ∧ pendingRR.status.data = "" ∧
    requestDuration 61000000000 pendingRR > defaultMaximumResolutionDuration ∧
    (reconcileKind 61000000000 pendingRR).1.status.condition =
      some ⟨CondStatus.cfalse, ReasonResolutionTimedOut, globalTimeoutMessage⟩ ∧
    (reconcileKind 61000000000 pendingRR).2 = ReconcileResult.done :=
  ⟨by decide, by decide, by decide,
    (reconcile_global_timeout 61000000000 pendingRR (by decide) (by decide) (by decide)).1,
    (reconcile_global_timeout 61000000000 pendingRR (by decide) (by decide) (by decide)).2⟩

/-- C6: a non-terminal request with empty status data whose elapsed time
does not exceed the global ceiling is marked InProgress with the
waiting-for-resolver message, and the reconciler requests a requeue
after exactly the global maximum resolution duration minus the elapsed
time since creation. -/
theorem reconcile_inprogress_requeue (now : Int) (rr : ResolutionRequest)
    (h1 : rr.IsDone = false) (h2 : rr.status.data = "")
    (h3 : requestDuration now rr ≤ defaultMaximumResolutionDuration) :
    (reconcileKind now rr).1.status.condition =
      some ⟨CondStatus.unknown, "", MessageWaitingForResolver⟩ ∧
    (reconcileKind now rr).2 =
      ReconcileResult.requeueAfter (defaultMaximumResolutionDuration - requestDuration now rr) := by
  have h4 : ¬ (defaultMaximumResolutionDuration < now - rr.creationTimestamp) := by
    simp only [requestDuration] at h3
    omega
  simp only [reconcileKind, h1, Bool.false_eq_true, if_false]
  by_cases hc : rr.status.condition.isNone <;>
    simp [hc, initializeConditions, markInProgress, requestDuration, h2, h4]

/-- C6 witness: `pendingRR` is non-terminal with empty data, its elapsed
time at instant 15000000000 (15s) is within the 60s ceiling, and
reconciling marks it InProgress waiting for a resolver and requeues
after the remaining 45s. -/
theorem reconcile_inprogress_requeue_witness :
    pendingRR.IsDone = false ∧ pendingRR.status.data = "" ∧
    requestDuration 15000000000 pendingRR ≤ defaultMaximumResolutionDuration ∧
    (reconcileKind 15000000000 pendingRR).1.status.condition =
      some ⟨CondStatus.unknown, "", MessageWaitingForResolver⟩ ∧
    (reconcileKind 15000000000 pendingRR).2 = ReconcileResult.requeueAfter 45000000000 :=
  ⟨by decide, by decide, by decide,
    (reconcile_inprogress_requeue 15000000000 pendingRR (by decide) (by decide) (by decide)).1,
    (reconcile_inprogress_requeue 15000000000 pendingRR (by decide) (by decide) (by decide)).2⟩

/-- Helper: when a `commit` parameter is given, a successful ref
resolution returns exactly that commit id. -/
theorem resolveRef_commit (repo : Repo) (params : List (String × String)) (c c0 : String)
    (h : lookupStr params "commit" = some c0)
    (hr : resolveRef repo params = Except.ok c) : c = c0 := by
  unfold resolveRef at hr
  rw [h] at hr
  by_cases ho : (lookupStr repo.objects c0).isSome
  · simp [ho] at hr
    exact hr.symm
  · simp [ho] at hr

/-- Helper: when a `branch` parameter is given (and no `commit`), a
successful ref resolution returns that branch's tip. -/
theorem resolveRef_branch (repo : Repo) (params : List (String × String)) (b c : String)
    (hc : lookupStr params "commit" = none)
    (hb : lookupStr params "branch" = some b)
    (hr : resolveRef repo params = Except.ok c) :
    lookupStr repo.branches b = some c := by
  cases hbr : lookupStr repo.branches b with
  | some c2 =>
    simp only [resolveRef, hc, hb, hbr, Except.ok.injEq] at hr
    rw [hr]
  | none =>
    simp only [resolveRef, hc, hb, hbr] at hr
    exact Except.noConfusion hr

/-- Helper: with neither `commit` nor `branch` given, a successful ref
resolution returns the default branch's tip. -/
theorem resolveRef_default (repo : Repo) (params : List (String × String)) (c : String)
    (hc : lookupStr params "commit" = none)
    (hb : lookupStr params "branch" = none)
    (hr : resolveRef repo params = Except.ok c) :
    lookupStr repo.branches repo.defaultBranch = some c := by
  cases hbr : lookupStr repo.branches repo.defaultBranch with
  | some c2 =>
    simp only [resolveRef, hc, hb, hbr, Except.ok.injEq] at hr
    rw [hr]
  | none =>
    simp only [resolveRef, hc, hb, hbr] at hr
    exact Except.noConfusion hr

/-- C1: for every validated parameter set, a successful `Resolve`
returns a resource whose content is byte-for-byte the file at `path` in
the tree of the resolved commit, and whose commit is the ref actually
checked out: the given commit id when `commit` is supplied, the tip of
the named branch when `branch` is supplied, and the default branch's
tip when neither is supplied. -/
theorem gitResolve_correct (repo : Repo) (params : List (String × String))
    (res : ResolvedGitResource)
    (hv : validateParams params = Except.ok ())
    (hr : gitResolve repo params = Except.ok res) :
    (∃ path tree, lookupStr params "path" = some path ∧
      lookupStr repo.objects res.commit = some tree ∧
      lookupStr tree path = some (GitEntry.file res.content)) ∧
    (∀ c, lookupStr params "commit" = some c → res.commit = c) ∧
    (∀ b, lookupStr params "commit" = none → lookupStr params "branch" = some b →
      lookupStr repo.branches b = some res.commit) ∧
    (lookupStr params "commit" = none → lookupStr params "branch" = none →
      lookupStr repo.branches repo.defaultBranch = some res.commit) := by
  cases hpath : lookupStr params "path" with
  | none =>
    simp only [gitResolve, hpath] at hr
    exact Except.noConfusion hr
  | some path =>
    cases href : resolveRef repo params with
    | error e =>
      simp only [gitResolve, hpath, href] at hr
      exact Except.noConfusion hr
    | ok c =>
      cases hobj : lookupStr repo.objects c with
      | none =>
        simp only [gitResolve, hpath, href, hobj] at hr
        exact Except.noConfusion hr
      | some tree =>
        cases hent : lookupStr tree path with
        | none =>
          simp only [gitResolve, hpath, href, hobj, hent] at hr
          exact Except.noConfusion hr
        | some entry =>
          cases entry with
          | dir =>
            simp only [gitResolve, hpath, href, hobj, hent] at hr
            exact Except.noConfusion hr
          | file content =>
            simp only [gitResolve, hpath, href, hobj, hent, Except.ok.injEq] at hr
            subst hr
            refine ⟨⟨path, tree, rfl, hobj, hent⟩, ?_, ?_, ?_⟩
            · intro c0 hcp
              exact resolveRef_commit repo params c c0 hcp href
            · intro b hcp hbp
              exact resolveRef_branch repo params b c hcp hbp href
            · intro hcp hbp
              exact resolveRef_default repo params c hcp hbp href

/-- C1 witness: pinning `commit = c1` in the demo repository validates,
resolves to content "some content" (not the later "different content")
with commit `c1`, and the resolved commit is the supplied one. -/
theorem gitResolve_correct_witness :
    validateParams demoParamsCommit = Except.ok () ∧
    gitResolve demoRepo demoParamsCommit =
      Except.ok ⟨someContentBytes, "c1"⟩ ∧
    (ResolvedGitResource.mk someContentBytes "c1").commit = "c1" :=
  ⟨rfl, rfl,
    (gitResolve_correct demoRepo demoParamsCommit ⟨someContentBytes, "c1"⟩ rfl rfl).2.1
      "c1" rfl⟩

/-- C4: the git resolver's parameter validation succeeds exactly when
`url` and `path` are present and `commit` and `branch` are not both
present — equivalently, it errors exactly when `url` is missing, `path`
is missing, or both `commit` and `branch` are given. -/
theorem validateParams_iff (params : List (String × String)) :
    validateParams params = Except.ok () ↔
      ((lookupStr params "url").isSome ∧ (lookupStr params "path").isSome ∧
        ¬ ((lookupStr params "commit").isSome ∧ (lookupStr params "branch").isSome)) := by
  unfold validateParams
  split_ifs with h1 h2 h3 <;>
    simp_all [Option.isSome_iff_ne_none, Option.isNone_iff_eq_none]

/-- C5: the git resolver's not-found failures carry exactly the spec's
messages: a path absent from the resolved tree yields
`error opening file "<path>": file does not exist`; a nonexistent
branch yields `clone error: couldn't find remote ref "refs/heads/<branch>"`;
a nonexistent commit id yields `checkout error: object not found`. -/
theorem gitResolve_notFound_messages :
    (∀ (repo : Repo) (params : List (String × String)) (path c : String)
      (tree : List (String × GitEntry)),
      lookupStr params "path" = some path →
      resolveRef repo params = Except.ok c →
      lookupStr repo.objects c = some tree →
      lookupStr tree path = none →
      gitResolve repo params =
        Except.error ("error opening file \"" ++ path ++ "\": file does not exist")) ∧
    (∀ (repo : Repo) (params : List (String × String)) (path b : String),
      lookupStr params "path" = some path →
      lookupStr params "commit" = none →
      lookupStr params "branch" = some b →
      lookupStr repo.branches b = none →
      gitResolve repo params =
        Except.error ("clone error: couldn't find remote ref \"refs/heads/" ++ b ++ "\"")) ∧
    (∀ (repo : Repo) (params : List (String × String)) (path c : String),
      lookupStr params "path" = some path →
      lookupStr params "commit" = some c →
      lookupStr repo.objects c = none →
      gitResolve repo params = Except.error "checkout error: object not found") := by
  refine ⟨?_, ?_, ?_⟩
  · intro repo params path c tree hpath href hobj hent
    simp only [gitResolve, hpath, href, hobj, hent]
  · intro repo params path b hpath hc hb hbr
    simp only [gitResolve, hpath, resolveRef, hc, hb, hbr]
  · intro repo params path c hpath hc hobj
    have ho : (lookupStr repo.objects c).isSome = false := by
      rw [hobj]; rfl
    simp only [gitResolve, hpath, resolveRef, hc, ho, Bool.false_eq_true, if_false]

/-- C5 witness: the three not-found failures evaluated on the demo
repository produce exactly the specified messages. -/
theorem gitResolve_notFound_messages_witness :
    gitResolve demoRepo demoParamsMissingFile =
      Except.error "error opening file \"foo/bar/some other file\": file does not exist" ∧
    gitResolve demoRepo demoParamsBadBranch =
      Except.error "clone error: couldn't find remote ref \"refs/heads/does-not-exist\"" ∧
    gitResolve demoRepo demoParamsBadCommit =
      Except.error "checkout error: object not found" :=
  ⟨gitResolve_notFound_messages.1 demoRepo demoParamsMissingFile
      "foo/bar/some other file" "c1" demoTree1 rfl rfl rfl rfl,
    gitResolve_notFound_messages.2.1 demoRepo demoParamsBadBranch
      "foo/bar/somefile" "does-not-exist" rfl rfl rfl rfl,
    gitResolve_notFound_messages.2.2 demoRepo demoParamsBadCommit
      "foo/bar/somefile" "deadbeef" rfl rfl rfl⟩

/-- Helper: the base64 alphabet map is injective on sextets — decoding
the character of any sextet below 64 recovers that sextet. -/
theorem codeToSextet_sextetToCode (n : Nat) (h : n < 64) :
    codeToSextet (sextetToCode n) = some n := by
  have key : ∀ m : Fin 64, codeToSextet (sextetToCode m.val) = some m.val := by decide
  exact key ⟨n, h⟩

/-- Helper: no alphabet character is the padding character `=`
(code 61). -/
theorem sextetToCode_ne_61 (n : Nat) : sextetToCode n ≠ 61 := by
  unfold sextetToCode
  split_ifs <;> omega

/-- Helper: strict base64 decoding inverts encoding byte-for-byte on
byte lists. -/
theorem base64_decode_encode : ∀ (bs : List Nat), (∀ b ∈ bs, b < 256) →
    base64Decode (base64Encode bs) = some bs
  | [], _ => rfl
  | [b0], h => by
    have hb0 : b0 < 256 := h b0 (by simp)
    have e0 : codeToSextet (sextetToCode (b0 / 4)) = some (b0 / 4) :=
      codeToSextet_sextetToCode _ (by omega)
    have e1 : codeToSextet (sextetToCode (b0 % 4 * 16)) = some (b0 % 4 * 16) :=
      codeToSextet_sextetToCode _ (by omega)
    have m1 : b0 % 4 * 16 % 16 = 0 := by omega
    simp [base64Encode, base64Decode, e0, e1, m1]
    omega
  | [b0, b1], h => by
    have hb0 : b0 < 256 := h b0 (by simp)
    have hb1 : b1 < 256 := h b1 (by simp)
    have hne : sextetToCode (b1 % 16 * 4) ≠ 61 := sextetToCode_ne_61 _
    have e0 : codeToSextet (sextetToCode (b0 / 4)) = some (b0 / 4) :=
      codeToSextet_sextetToCode _ (by omega)
    have e1 : codeToSextet (sextetToCode (b0 % 4 * 16 + b1 / 16)) =
        some (b0 % 4 * 16 + b1 / 16) :=
      codeToSextet_sextetToCode _ (by omega)
    have e2 : codeToSextet (sextetToCode (b1 % 16 * 4)) = some (b1 % 16 * 4) :=
      codeToSextet_sextetToCode _ (by omega)
    have m1 : b1 % 16 * 4 % 4 = 0 := by omega
    simp [base64Encode, base64Decode, hne, e0, e1, e2, m1]
    omega
  | b0 :: b1 :: b2 :: rest, h => by
    have hb0 : b0 < 256 := h b0 (by simp)
    have hb1 : b1 < 256 := h b1 (by simp)
    have hb2 : b2 < 256 := h b2 (by simp)
    have ih := base64_decode_encode rest (fun b hb => h b (by simp [hb]))
    have hne2 : sextetToCode (b1 % 16 * 4 + b2 / 64) ≠ 61 := sextetToCode_ne_61 _
    have hne3 : sextetToCode (b2 % 64) ≠ 61 := sextetToCode_ne_61 _
    have e0 : codeToSextet (sextetToCode (b0 / 4)) = some (b0 / 4) :=
      codeToSextet_sextetToCode _ (by omega)
    have e1 : codeToSextet (sextetToCode (b0 % 4 * 16 + b1 / 16)) =
        some (b0 % 4 * 16 + b1 / 16) :=
      codeToSextet_sextetToCode _ (by omega)
    have e2 : codeToSextet (sextetToCode (b1 % 16 * 4 + b2 / 64)) =
        some (b1 % 16 * 4 + b2 / 64) :=
      codeToSextet_sextetToCode _ (by omega)
    have e3 : codeToSextet (sextetToCode (b2 % 64)) = some (b2 % 64) :=
      codeToSextet_sextetToCode _ (by omega)
    simp [base64Encode, base64Decode, hne2, hne3, e0, e1, e2, e3, ih]
    omega

/-- C7: when the resolver returns an error other than a deadline
expiry, the framework driver marks the request Failed with reason
`ResolutionFailed` and message exactly
`error getting "<ResolverName>" "<namespace>/<name>": <underlying error>`. -/
theorem frameworkDispatch_failure_message (resolverName reqNamespace reqName e : String)
    (st : FrameworkStatus) :
    (frameworkDispatch resolverName reqNamespace reqName
        (ResolveOutcome.failure e) st).condition =
      some ⟨CondStatus.cfalse, "ResolutionFailed",
        "error getting \"" ++ resolverName ++ "\" \"" ++ reqNamespace ++ "/" ++
          reqName ++ "\": " ++ e⟩ :=
  rfl

/-- C8: on a successful resolution the framework driver stores the
content under the reversible base64 encoding — decoding the stored
status data yields exactly the resolver's content bytes — copies the
resolver annotations onto the status unchanged, and marks the request
Succeeded. -/
theorem frameworkDispatch_success_roundtrip (resolverName reqNamespace reqName : String)
    (content : List Nat) (anns : List (String × String)) (st : FrameworkStatus)
    (h : ∀ b ∈ content, b < 256) :
    base64Decode (frameworkDispatch resolverName reqNamespace reqName
        (ResolveOutcome.success content anns) st).data = some content ∧
    (frameworkDispatch resolverName reqNamespace reqName
        (ResolveOutcome.success content anns) st).annotations = anns ∧
    (frameworkDispatch resolverName reqNamespace reqName
        (ResolveOutcome.success content anns) st).condition =
      some ⟨CondStatus.ctrue, "", ""⟩ :=
  ⟨base64_decode_encode content h, rfl, rfl⟩

/-- C8 witness: dispatching a successful resolution of "some content"
with one annotation stores base64 data decoding back to the content,
copies the annotation and marks Succeeded. -/
theorem frameworkDispatch_success_roundtrip_witness :
    base64Decode (frameworkDispatch "Fake" "foo" "rr"
        (ResolveOutcome.success someContentBytes [("foo", "bar")])
        emptyFrameworkStatus).data = some someContentBytes ∧
    (frameworkDispatch "Fake" "foo" "rr"
        (ResolveOutcome.success someContentBytes [("foo", "bar")])
        emptyFrameworkStatus).annotations = [("foo", "bar")] ∧
    (frameworkDispatch "Fake" "foo" "rr"
        (ResolveOutcome.success someContentBytes [("foo", "bar")])
        emptyFrameworkStatus).condition = some ⟨CondStatus.ctrue, "", ""⟩ :=
  frameworkDispatch_success_roundtrip "Fake" "foo" "rr" someContentBytes
    [("foo", "bar")] emptyFrameworkStatus (by decide)

/-- C9: `GetResolutionTimeout` returns the caller-supplied default when
no resolver configuration is present, and the duration configured under
the timeout field when the configuration carries one. -/
theorem getResolutionTimeout_spec (defaultTimeout : Int) :
    GetResolutionTimeout none defaultTimeout = defaultTimeout ∧
    (∀ (cfg : List (String × String)) (s : String) (t : Int),
      lookupStr cfg ConfigFieldTimeout = some s → parseGoDuration s = some t →
      GetResolutionTimeout (some cfg) defaultTimeout = t) := by
  refine ⟨rfl, ?_⟩
  intro cfg s t hs ht
  simp only [GetResolutionTimeout, hs, ht]

/-- C9 witness: with no configuration a 30-minute default is returned
unchanged; with `timeout: "5s"` configured, five seconds is returned. -/
theorem getResolutionTimeout_spec_witness :
    GetResolutionTimeout none 1800000000000 = 1800000000000 ∧
    GetResolutionTimeout (some [(ConfigFieldTimeout, "5s")]) 1800000000000 = 5000000000 :=
  ⟨(getResolutionTimeout_spec 1800000000000).1,
    (getResolutionTimeout_spec 1800000000000).2 [(ConfigFieldTimeout, "5s")] "5s"
      5000000000 rfl rfl⟩
